import Mathlib

/-!
Verification of the ticktick-mcp repository: a shallow embedding of the
TickTick REST client (`src/ticktick_mcp/api.py`) and of the MCP tool
adapter (`src/ticktick_mcp/server.py`), together with theorems settling
the frozen specification claims.

Conventions of the embedding:
* Python dict payloads sent to the remote API are association lists
  `List (String × JVal)` built in the source's insertion order.
* A Python method that can raise is a Lean function into `Except`.
* The HTTP layer is an oracle: `get_projects` is a value of type
  `Except HttpError (List Project)`, a per-project data fetch is a function
  `String → Except HttpError ProjectData`.  `HttpError.statusError` models
  `httpx.HTTPStatusError` (raised by `raise_for_status` on any non-2xx
  response); `HttpError.transportError` models every other exception the
  request can raise (`httpx.RequestError` and friends).
* Python truthiness of an optional string (`if s:`) is `pyStrTruthy`.
-/

namespace TickTickMcp

/-- Checklist sub-item of a task: title, completion status (0/1) and sort
position, as held in the `items` field of a TickTick task dict. -/
structure ChecklistItem where
  title : String
  status : Int
  sortOrder : Int
deriving DecidableEq

/-- JSON-ish value stored in an outbound payload dict. -/
inductive JVal where
  | str : String → JVal
  | int : Int → JVal
  | items : List ChecklistItem → JVal
deriving DecidableEq

/-- A TickTick task as the client sees it: the fields of the remote JSON
dict that the repository reads, each optional because the code accesses
them with `dict.get`.  `projectName` models the `_project_name` key that
`get_all_tasks` adds client-side. -/
structure Task where
  id : Option String := none
  title : Option String := none
  priority : Option Int := none
  dueDate : Option String := none
  projectId : Option String := none
  tags : List String := []
  items : List ChecklistItem := []
  projectName : Option String := none
deriving DecidableEq

/-- A TickTick project.  `id` is required because the aggregation loop
indexes `project["id"]` directly. -/
structure Project where
  id : String
  name : Option String := none
  color : Option String := none
  viewMode : Option String := none
  kind : Option String := none
deriving DecidableEq

/-- Result of `GET /project/{id}/data`: the code reads `data.get("tasks", [])`. -/
structure ProjectData where
  tasks : Option (List Task) := none
deriving DecidableEq

/-- Errors the HTTP layer can raise: `statusError` is `httpx.HTTPStatusError`
(any non-2xx response, carrying the status code), `transportError` is any
other exception raised while performing the request. -/
inductive HttpError where
  | statusError : Nat → HttpError
  | transportError : String → HttpError
deriving DecidableEq

/-- Python truthiness of an optional string argument (`if s:`). -/
def pyStrTruthy : Option String → Bool
  | some s => s != ""
  | none => false

/-- Dict lookup on an association-list payload (first binding wins, as in a
Python dict built by successive insertions of distinct keys). -/
def plookup (k : String) : List (String × JVal) → Option JVal
  | [] => none
  | (k2, v) :: rest => if k = k2 then some v else plookup k rest

/-- The due-date fix-up both `create_task` and `update_task` apply before
transmission: `if len(due_date) == 10: due_date = f"{due_date}T00:00:00+0000"`. -/
def expand_due_date (d : String) : String :=
  if d.length = 10 then d ++ "T00:00:00+0000" else d

/-- One optional string field added to a payload only when truthy
(`if value: payload[key] = value`). -/
def strIfTruthy (key : String) (v : Option String) : List (String × JVal) :=
  match v with
  | some s => if s = "" then [] else [(key, JVal.str s)]
  | none => []

/-- Outbound payload built by `create_task` (api.py lines 126-140): `title`
always; `projectId`, `content` when truthy; `priority` when non-zero
(`if priority:`); `dueDate` when truthy, after `expand_due_date`. -/
def create_task_payload (title : String) (project_id : Option String)
    (content : Option String) (priority : Int) (due_date : Option String) :
    List (String × JVal) :=
  [("title", JVal.str title)]
    ++ strIfTruthy "projectId" project_id
    ++ strIfTruthy "content" content
    ++ (if priority = 0 then [] else [("priority", JVal.int priority)])
    ++ (match due_date with
        | some d => if d = "" then [] else [("dueDate", JVal.str (expand_due_date d))]
        | none => [])

/-- Outbound payload built by `update_task` (api.py lines 142-165): `id` and
`projectId` always; `title` when truthy (`if title:`); `content` and
`priority` when not `None` (`is not None`); `dueDate` when truthy, after
`expand_due_date`. -/
def update_task_payload (task_id : String) (project_id : String)
    (title : Option String) (content : Option String) (priority : Option Int)
    (due_date : Option String) : List (String × JVal) :=
  [("id", JVal.str task_id), ("projectId", JVal.str project_id)]
    ++ strIfTruthy "title" title
    ++ (match content with
        | some c => [("content", JVal.str c)]
        | none => [])
    ++ (match priority with
        | some p => [("priority", JVal.int p)]
        | none => [])
    ++ (match due_date with
        | some d => if d = "" then [] else [("dueDate", JVal.str (expand_due_date d))]
        | none => [])

/-- The per-project loop of `get_all_tasks` (api.py lines 66-80): for each
project fetch its data, annotate every task with the project's display name
(`task["_project_name"] = project.get("name", "Unknown")`) and concatenate;
`except httpx.HTTPStatusError: continue` skips the project on any status
error, while every other exception propagates. -/
def aggregateLoop (fd : String → Except HttpError ProjectData) :
    List Project → Except HttpError (List Task)
  | [] => Except.ok []
  | p :: rest =>
    match fd p.id with
    | Except.ok data =>
      let tasks := (data.tasks.getD []).map
        (fun t => { t with projectName := some (p.name.getD "Unknown") })
      match aggregateLoop fd rest with
      | Except.ok more => Except.ok (tasks ++ more)
      | Except.error e => Except.error e
    | Except.error (HttpError.statusError _) => aggregateLoop fd rest
    | Except.error (HttpError.transportError m) =>
      Except.error (HttpError.transportError m)

/-- `get_all_tasks` (api.py lines 54-80).  `getProjects` and `fd` are the
HTTP oracles for `GET /project` and `GET /project/{id}/data`.  A truthy
`project_id` selects the single-project branch
(`data.get("tasks", [])`); otherwise all projects are aggregated. -/
def get_all_tasks (getProjects : Except HttpError (List Project))
    (fd : String → Except HttpError ProjectData) (project_id : Option String) :
    Except HttpError (List Task) :=
  if pyStrTruthy project_id then
    match fd (project_id.getD "") with
    | Except.ok data => Except.ok (data.tasks.getD [])
    | Except.error e => Except.error e
  else
    match getProjects with
    | Except.ok projects => aggregateLoop fd projects
    | Except.error e => Except.error e

/-- `get_tasks_by_priority` (api.py lines 95-106): aggregate, then
`[t for t in all_tasks if t.get("priority", 0) >= min_priority]`. -/
def get_tasks_by_priority (getProjects : Except HttpError (List Project))
    (fd : String → Except HttpError ProjectData) (min_priority : Int) :
    Except HttpError (List Task) :=
  match get_all_tasks getProjects fd none with
  | Except.ok all_tasks =>
    Except.ok (all_tasks.filter (fun t => decide (min_priority ≤ t.priority.getD 0)))
  | Except.error e => Except.error e

/-- Naive Python `datetime` value: year, month, day, hour, minute, second,
microsecond. -/
structure PyDateTime where
  year : Nat
  month : Nat
  day : Nat
  hour : Nat
  minute : Nat
  second : Nat
  microsecond : Nat
deriving DecidableEq

/-- Mixed-radix key giving Python's componentwise (lexicographic) datetime
order, valid because every component stays below its radix. -/
def PyDateTime.key (dt : PyDateTime) : Nat :=
  (((((dt.year * 13 + dt.month) * 32 + dt.day) * 24 + dt.hour) * 60 + dt.minute)
      * 60 + dt.second) * 1000000 + dt.microsecond

/-- Python `datetime.__lt__` on naive datetimes. -/
def PyDateTime.lt (a b : PyDateTime) : Bool :=
  decide (a.key < b.key)

/-- Gregorian leap-year rule, as in Python's `datetime`. -/
def isLeapYear (y : Nat) : Bool :=
  y % 4 == 0 && (y % 100 != 0 || y % 400 == 0)

/-- Days in a month, as validated by Python's `datetime` constructor. -/
def daysInMonth (y m : Nat) : Nat :=
  if m == 2 then (if isLeapYear y then 29 else 28)
  else if m == 4 || m == 6 || m == 9 || m == 11 then 30
  else 31

/-- Whitespace that Python's `int()` strips. -/
def isPySpace (c : Char) : Bool :=
  c == ' ' || c == '\t' || c == '\n' || c == '\r' || c.toNat == 11 ||
    c.toNat == 12

/-- Python's slice `s[a:b]` on characters. -/
def pySlice (cs : List Char) (a b : Nat) : List Char :=
  (cs.take b).drop a

/-- Modelled from Python's `int()` on the component strings arising here:
optional surrounding whitespace, then one or more ASCII decimal digits.
(Signs never reach a component — the offset split removes them first — and
non-ASCII digit forms are outside the modelled subset.) -/
def pyInt (cs : List Char) : Option Nat :=
  let t := ((cs.dropWhile isPySpace).reverse.dropWhile isPySpace).reverse
  if t.isEmpty then none
  else if t.all Char.isDigit then
    some (t.foldl (fun acc c => acc * 10 + (c.toNat - 48)) 0)
  else none

/-- `_parse_isoformat_date` of CPython 3.10's `datetime` module:
`int(dstr[0:4])`, a dash at index 4, `int(dstr[5:7])`, a dash at index 7,
`int(dstr[8:10])`.  Any failure — the `IndexError` a short string raises
included — yields `none`. -/
def parse_isoformat_date (dstr : List Char) : Option (Nat × Nat × Nat) :=
  match pyInt (pySlice dstr 0 4) with
  | none => none
  | some y =>
    match dstr[4]? with
    | none => none
    | some c =>
      if c ≠ '-' then none
      else
        match pyInt (pySlice dstr 5 7) with
        | none => none
        | some mo =>
          match dstr[7]? with
          | none => none
          | some c2 =>
            if c2 ≠ '-' then none
            else
              match pyInt (pySlice dstr 8 10) with
              | none => none
              | some d => some (y, mo, d)

/-- `_parse_hh_mm_ss_ff` of CPython 3.10's `datetime` module:
`HH[:MM[:SS[.fff|.ffffff]]]` — two-character components separated by
colons, a fractional part of exactly three or six digits — returning hour,
minute, second and microseconds. -/
def parse_hh_mm_ss_ff (tstr : List Char) : Option (Nat × Nat × Nat × Nat) :=
  let len := tstr.length
  if len < 2 then none
  else
    match pyInt (pySlice tstr 0 2) with
    | none => none
    | some hh =>
      match pySlice tstr 2 3 with
      | [] => some (hh, 0, 0, 0)
      | c :: _ =>
        if c ≠ ':' then none
        else if len - 3 < 2 then none
        else
          match pyInt (pySlice tstr 3 5) with
          | none => none
          | some mm =>
            match pySlice tstr 5 6 with
            | [] => some (hh, mm, 0, 0)
            | c2 :: _ =>
              if c2 ≠ ':' then none
              else if len - 6 < 2 then none
              else
                match pyInt (pySlice tstr 6 8) with
                | none => none
                | some ss =>
                  if len = 8 then some (hh, mm, ss, 0)
                  else
                    match pySlice tstr 8 9 with
                    | [] => none
                    | c3 :: _ =>
                      if c3 ≠ '.' then none
                      else
                        let rem := tstr.drop 9
                        if rem.length = 3 then
                          (pyInt rem).map (fun f => (hh, mm, ss, f * 1000))
                        else if rem.length = 6 then
                          (pyInt rem).map (fun f => (hh, mm, ss, f))
                        else none

/-- `_parse_isoformat_time` of CPython 3.10's `datetime` module: the time
components, then an optional UTC offset starting at the first `-` of the
string (or, when no `-` occurs, the first `+`), whose text must be `HH:MM`,
`HH:MM:SS` or `HH:MM:SS.ffffff`.  An offset makes the result aware,
carrying the signed total offset in microseconds. -/
def parse_isoformat_time (tstr : List Char) :
    Option ((Nat × Nat × Nat × Nat) × Option Int) :=
  if tstr.length < 2 then none
  else
    let tzIdx :=
      match tstr.findIdx? (fun c => c == '-') with
      | some i => some i
      | none => tstr.findIdx? (fun c => c == '+')
    match tzIdx with
    | none => (parse_hh_mm_ss_ff tstr).map (fun comps => (comps, none))
    | some i =>
      let timestr := tstr.take i
      let tzstr := tstr.drop (i + 1)
      let sign : Int := if tstr[i]? == some '-' then -1 else 1
      match parse_hh_mm_ss_ff timestr with
      | none => none
      | some comps =>
        if tzstr.length = 5 ∨ tzstr.length = 8 ∨ tzstr.length = 15 then
          match parse_hh_mm_ss_ff tzstr with
          | none => none
          | some (th, tm, ts, tf) =>
            some (comps, some (sign *
              (((th * 3600 + tm * 60 + ts) * 1000000 + tf : Nat) : Int)))
        else none

/-- Result of a `datetime.fromisoformat` call: the naive components, and
for an offset-bearing string the UTC offset in microseconds (`tz := some
off`, an aware datetime). -/
structure ParsedDateTime where
  dt : PyDateTime
  tz : Option Int := none
deriving DecidableEq

/-- Modelled from CPython 3.10's pure-Python `datetime.fromisoformat` (the
oldest interpreter the repository's `dict | list` annotations admit): the
first ten characters must parse as `YYYY-MM-DD` (with `int`'s whitespace
tolerance); the eleventh character, whatever it is, separates an optional
time part read from the twelfth character on (an empty time part, as in a
10- or 11-character string, means midnight); the `datetime` constructor's
calendar and range checks apply, and an offset of 24 hours or more is
rejected as `timezone` would.  `none` stands for the `ValueError` (or
`IndexError`) the Python call raises — both are caught at the call site.
CPython 3.11 widened the accepted grammar at the margins, but the
behaviours the theorems rest on — an offset suffix parses to an AWARE
result, trailing garbage raises, a date-only string means midnight — agree
across the supported versions. -/
def fromisoformat (cs : List Char) : Option ParsedDateTime :=
  let dstr := pySlice cs 0 10
  let tstr := cs.drop 11
  match parse_isoformat_date dstr with
  | none => none
  | some (y, mo, d) =>
    if y = 0 ∨ mo = 0 ∨ mo > 12 ∨ d = 0 ∨ d > daysInMonth y mo then none
    else
      if tstr.isEmpty then some { dt := ⟨y, mo, d, 0, 0, 0, 0⟩ }
      else
        match parse_isoformat_time tstr with
        | none => none
        | some ((h, mi, s, us), tz) =>
          if h ≥ 24 ∨ mi ≥ 60 ∨ s ≥ 60 then none
          else
            match tz with
            | none => some { dt := ⟨y, mo, d, h, mi, s, us⟩ }
            | some off =>
              if off.natAbs < 24 * 3600 * 1000000 then
                some { dt := ⟨y, mo, d, h, mi, s, us⟩, tz := some off }
              else none

/-- The string surgery of `get_overdue_tasks` (api.py lines 263-266) on the
characters of the due date: `due_str = due_date[:19].replace("T", " ")`,
overridden by `due_str = due_date.split("+")[0]` when a `+` occurs. -/
def normalizeDueChars (cs : List Char) : List Char :=
  if cs.contains '+' then cs.takeWhile (fun c => c != '+')
  else (cs.take 19).map (fun c => if c == 'T' then ' ' else c)

/-- The `TypeError` message Python raises when an aware datetime is
compared with the naive `now`. -/
def awareCompareMsg : String :=
  "can\x27t compare offset-naive and offset-aware datetimes"

/-- The filtering loop of `get_overdue_tasks` (api.py lines 258-273): keep a
task when its due date is truthy, parses after `normalizeDueChars`, and is
strictly before `now`; `except (ValueError, IndexError): continue` drops
unparseable dates, but when the date parses to an AWARE datetime the
comparison `task_due < now` raises a `TypeError` that the clause does not
catch, aborting the whole loop. -/
def overdue_loop (now : PyDateTime) : List Task → Except String (List Task)
  | [] => Except.ok []
  | task :: rest =>
    let due_date := task.dueDate.getD ""
    if due_date == "" then overdue_loop now rest
    else
      match fromisoformat (normalizeDueChars due_date.data) with
      | some task_due =>
        match task_due.tz with
        | none =>
          if PyDateTime.lt task_due.dt now then
            match overdue_loop now rest with
            | Except.ok more => Except.ok (task :: more)
            | Except.error e => Except.error e
          else overdue_loop now rest
        | some _ => Except.error awareCompareMsg
      | none => overdue_loop now rest

/-- A failure escaping `get_overdue_tasks`: an HTTP-layer error from the
aggregation, or the uncaught `TypeError` of an aware-vs-naive comparison. -/
inductive OverdueError where
  | http : HttpError → OverdueError
  | typeError : String → OverdueError
deriving DecidableEq

/-- `get_overdue_tasks` (api.py lines 253-273): aggregate all tasks, then run
the overdue filter against the caller's current local time `now`; an
uncaught `TypeError` from the loop propagates. -/
def get_overdue_tasks (getProjects : Except HttpError (List Project))
    (fd : String → Except HttpError ProjectData) (now : PyDateTime) :
    Except OverdueError (List Task) :=
  match get_all_tasks getProjects fd none with
  | Except.ok all_tasks =>
    match overdue_loop now all_tasks with
    | Except.ok overdue_tasks => Except.ok overdue_tasks
    | Except.error m => Except.error (OverdueError.typeError m)
  | Except.error e => Except.error (OverdueError.http e)

/-- Errors `add_subtask` can surface: an HTTP-layer error from the fetch, or
the `ValueError` raised when the task is not in the project's task set. -/
inductive ApiFailure where
  | http : HttpError → ApiFailure
  | valueError : String → ApiFailure
deriving DecidableEq

/-- `add_subtask` (api.py lines 353-395), modelled up to the outbound
request: fetch the project data, locate the task by identifier
(`t.get("id") == task_id`, first match), raise `ValueError` when absent,
append a new checklist item with status 0 and sort position `len(items)`,
and return the payload resubmitted to `POST /task/{task_id}`. -/
def add_subtask (fd : String → Except HttpError ProjectData)
    (task_id : String) (project_id : String) (subtask_title : String) :
    Except ApiFailure (List (String × JVal)) :=
  match fd project_id with
  | Except.error e => Except.error (ApiFailure.http e)
  | Except.ok data =>
    let tasks := data.tasks.getD []
    match tasks.find? (fun t => t.id == some task_id) with
    | none =>
      Except.error (ApiFailure.valueError
        ("Task " ++ task_id ++ " not found in project " ++ project_id))
    | some current_task =>
      let items := current_task.items ++
        [⟨subtask_title, 0, (current_task.items.length : Int)⟩]
      Except.ok [("id", JVal.str task_id), ("projectId", JVal.str project_id),
        ("items", JVal.items items)]

/-- `mcp.types.TextContent` as the adapter builds it. -/
structure TextContent where
  type : String
  text : String
deriving DecidableEq

/-- A Python exception caught by the adapter, reduced to its `str(e)`. -/
structure PyErr where
  msg : String
deriving DecidableEq

/-- A kanban column of `get_project_with_data`, read with `c.get("name", "")`. -/
structure Column where
  name : Option String := none
deriving DecidableEq

/-- Result dict of `TickTickAPI.get_project_with_data`. -/
structure ProjectWithData where
  project : Project
  tasks : List Task := []
  columns : List Column := []

/-- One entry of the `subtasks` argument of `create_task_with_subtasks`. -/
structure SubtaskArg where
  title : Option String := none
  status : Option Int := none

/-- The `arguments` mapping of a tool invocation: each key the dispatch code
ever reads, absent keys as `none` (`arguments["k"]` on an absent key raises
`KeyError`, `arguments.get` returns the default). -/
structure ToolArgs where
  project_id : Option String := none
  name : Option String := none
  color : Option String := none
  view_mode : Option String := none
  kind : Option String := none
  title : Option String := none
  content : Option String := none
  priority : Option Int := none
  due_date : Option String := none
  task_id : Option String := none
  subtask_title : Option String := none
  tag : Option String := none
  min_priority : Option Int := none
  subtasks : Option (List SubtaskArg) := none

/-- The TickTick client as the adapter sees it: one oracle per method, each
able to raise (`Except.error`).  `json_dumps` models the
`json.dumps(project, indent=2)` rendering used by one handler. -/
structure ApiModel where
  get_projects : Except PyErr (List Project)
  get_project_by_id : String → Except PyErr Project
  get_project_with_data : String → Except PyErr ProjectWithData
  create_project : String → String → String → String → Except PyErr Project
  update_project : String → Option String → Option String → Option String →
    Option String → Except PyErr Project
  delete_project : String → Except PyErr Unit
  get_all_tasks : Option String → Except PyErr (List Task)
  get_today_tasks : Except PyErr (List Task)
  get_overdue_tasks : Except PyErr (List Task)
  get_tasks_by_priority : Int → Except PyErr (List Task)
  get_tasks_by_tag : String → Except PyErr (List Task)
  get_all_tags : Except PyErr (List String)
  create_task : String → Option String → Option String → Int → Option String →
    Except PyErr Task
  create_task_with_subtasks : String → Option String → Option String → Int →
    Option String → List SubtaskArg → Except PyErr Task
  add_subtask : String → String → String → Except PyErr Task
  complete_task : String → String → Except PyErr Unit
  update_task : String → String → Option String → Option String → Option Int →
    Option String → Except PyErr Task
  delete_task : String → String → Except PyErr Unit
  json_dumps : Project → String

/-- `arguments["key"]`: the value, or the `KeyError` whose `str` is the
quoted key. -/
def getReq {α : Type} (o : Option α) (key : String) : Except PyErr α :=
  match o with
  | some v => Except.ok v
  | none => Except.error ⟨"\x27" ++ key ++ "\x27"⟩

/-- `format_task` (server.py lines 32-50). -/
def format_task (task : Task) : String :=
  let priority :=
    match task.priority.getD 0 with
    | 0 => "⚪"
    | 1 => "🔵"
    | 3 => "🟡"
    | 5 => "🔴"
    | _ => "⚪"
  let title := task.title.getD "Untitled"
  let project := task.projectName.getD ""
  let due := if pyStrTruthy task.dueDate then (task.dueDate.getD "").take 10 else ""
  let tags := task.tags
  let parts := [priority ++ " " ++ title]
    ++ (if project != "" then ["[" ++ project ++ "]"] else [])
    ++ (if due != "" then ["📅 " ++ due] else [])
    ++ (if tags.isEmpty then [] else ["🏷️ " ++ String.intercalate ", " tags])
  String.intercalate " " parts

/-- `format_tasks_list` (server.py lines 53-71). -/
def format_tasks_list (tasks : List Task) (show_subtasks : Bool) : String :=
  if tasks.isEmpty then "No tasks found."
  else
    let header := "Found " ++ toString tasks.length ++ " task(s):\n"
    let lines := [header] ++ (tasks.map (fun task =>
      ["  • " ++ format_task task,
       "    ID: " ++ task.id.getD "N/A" ++ " | Project ID: " ++
         task.projectId.getD "N/A"]
      ++ (if show_subtasks && !task.items.isEmpty then
            task.items.map (fun item =>
              "      " ++ (if item.status == 1 then "✓" else "○") ++ " " ++
                item.title)
          else []))).flatten
    String.intercalate "\n" lines

/-- `format_project` (server.py lines 74-79). -/
def format_project (project : Project) : String :=
  "📁 " ++ project.name.getD "Untitled" ++ " (" ++ project.viewMode.getD "list"
    ++ ") " ++ project.color.getD ""

/-- The names of the fixed tool catalog returned by `list_tools`
(server.py lines 82-426), in declaration order; the dispatch chain of
`call_tool` tests exactly these names. -/
def toolNames : List String :=
  ["get_projects", "get_project_by_id", "get_project_with_data",
   "create_project", "update_project", "delete_project", "get_tasks",
   "get_today_tasks", "get_overdue_tasks", "get_high_priority_tasks",
   "get_tasks_by_tag", "get_all_tags", "create_task",
   "create_task_with_subtasks", "add_subtask", "complete_task", "update_task",
   "delete_task"]

/-- The `try:` block of `call_tool` (server.py lines 434-610): the dispatch
chain over tool names, each branch calling the client and rendering a text
result; an unrecognized name falls through to the `Unknown tool` result.
`Except.error` is an exception escaping the block. -/
def call_tool_body (api : ApiModel) (name : String) (args : ToolArgs) :
    Except PyErr (List TextContent) :=
  if name = "get_projects" then do
    let projects ← api.get_projects
    if projects.isEmpty then
      pure [⟨"text", "No projects found."⟩]
    else
      let header := "Found " ++ toString projects.length ++ " project(s):\n"
      let lines := [header] ++ (projects.map (fun p =>
        ["  • " ++ format_project p, "    ID: " ++ p.id])).flatten
      pure [⟨"text", String.intercalate "\n" lines⟩]
  else if name = "get_project_by_id" then do
    let pid ← getReq args.project_id "project_id"
    let project ← api.get_project_by_id pid
    pure [⟨"text", format_project project ++ "\nID: " ++ project.id ++ "\n\n" ++
      api.json_dumps project⟩]
  else if name = "get_project_with_data" then do
    let pid ← getReq args.project_id "project_id"
    let data ← api.get_project_with_data pid
    let project := data.project
    let tasks := data.tasks
    let columns := data.columns
    let lines := ["📁 Project: " ++ project.name.getD "Untitled" ++ "\n",
        "Tasks: " ++ toString tasks.length]
      ++ (if columns.isEmpty then [] else
          ["Columns: " ++ String.intercalate ", "
            (columns.map (fun c => c.name.getD ""))])
      ++ ["\n" ++ format_tasks_list tasks true]
    pure [⟨"text", String.intercalate "\n" lines⟩]
  else if name = "create_project" then do
    let n ← getReq args.name "name"
    let project ← api.create_project n (args.color.getD "#4772FA")
      (args.view_mode.getD "list") (args.kind.getD "TASK")
    pure [⟨"text", "✅ Project created: " ++ project.name.getD "Untitled" ++
      "\nID: " ++ project.id⟩]
  else if name = "update_project" then do
    let pid ← getReq args.project_id "project_id"
    let project ← api.update_project pid args.name args.color args.view_mode none
    pure [⟨"text", "✅ Project updated: " ++ project.name.getD "Untitled"⟩]
  else if name = "delete_project" then do
    let pid ← getReq args.project_id "project_id"
    let _ ← api.delete_project pid
    pure [⟨"text", "🗑️ Project deleted."⟩]
  else if name = "get_tasks" then do
    let tasks ← api.get_all_tasks args.project_id
    pure [⟨"text", format_tasks_list tasks false⟩]
  else if name = "get_today_tasks" then do
    let tasks ← api.get_today_tasks
    let result := format_tasks_list tasks false
    pure [⟨"text", if tasks.isEmpty then "✅ No tasks due today!"
      else "📅 Tasks due TODAY:\n\n" ++ result⟩]
  else if name = "get_overdue_tasks" then do
    let tasks ← api.get_overdue_tasks
    let result := format_tasks_list tasks false
    pure [⟨"text", if tasks.isEmpty then "✅ No overdue tasks!"
      else "⚠️ OVERDUE tasks (" ++ toString tasks.length ++ "):\n\n" ++ result⟩]
  else if name = "get_high_priority_tasks" then do
    let mp := args.min_priority.getD 3
    let tasks ← api.get_tasks_by_priority mp
    let label := if mp = 1 then "Low+" else if mp = 3 then "Medium+"
      else if mp = 5 then "High" else ""
    let result := format_tasks_list tasks false
    pure [⟨"text", if tasks.isEmpty then result
      else "🎯 " ++ label ++ " priority tasks:\n\n" ++ result⟩]
  else if name = "get_tasks_by_tag" then do
    let tag ← getReq args.tag "tag"
    let tasks ← api.get_tasks_by_tag tag
    let result := format_tasks_list tasks false
    pure [⟨"text", if tasks.isEmpty then
        "No tasks found with tag \x27" ++ tag ++ "\x27"
      else "🏷️ Tasks with tag \x27" ++ tag ++ "\x27:\n\n" ++ result⟩]
  else if name = "get_all_tags" then do
    let tags ← api.get_all_tags
    if tags.isEmpty then
      pure [⟨"text", "No tags found."⟩]
    else
      pure [⟨"text", "🏷️ All tags (" ++ toString tags.length ++ "):\n\n" ++
        String.intercalate "\n" (tags.map (fun t => "  • " ++ t))⟩]
  else if name = "create_task" then do
    let title ← getReq args.title "title"
    let task ← api.create_task title args.project_id args.content
      (args.priority.getD 0) args.due_date
    pure [⟨"text", "✅ Task created: " ++ task.title.getD "Untitled" ++
      "\nID: " ++ task.id.getD "N/A"⟩]
  else if name = "create_task_with_subtasks" then do
    let title ← getReq args.title "title"
    let task ← api.create_task_with_subtasks title args.project_id args.content
      (args.priority.getD 0) args.due_date (args.subtasks.getD [])
    let subtask_count := (args.subtasks.getD []).length
    pure [⟨"text", "✅ Task created: " ++ task.title.getD "Untitled" ++
      " with " ++ toString subtask_count ++ " subtask(s)\nID: " ++
      task.id.getD "N/A"⟩]
  else if name = "add_subtask" then do
    let tid ← getReq args.task_id "task_id"
    let pid ← getReq args.project_id "project_id"
    let st ← getReq args.subtask_title "subtask_title"
    let _ ← api.add_subtask tid pid st
    pure [⟨"text", "✅ Subtask added: " ++ st⟩]
  else if name = "complete_task" then do
    let tid ← getReq args.task_id "task_id"
    let pid ← getReq args.project_id "project_id"
    let _ ← api.complete_task tid pid
    pure [⟨"text", "✅ Task marked as complete!"⟩]
  else if name = "update_task" then do
    let tid ← getReq args.task_id "task_id"
    let pid ← getReq args.project_id "project_id"
    let task ← api.update_task tid pid args.title args.content args.priority
      args.due_date
    pure [⟨"text", "✅ Task updated: " ++ task.title.getD "Untitled"⟩]
  else if name = "delete_task" then do
    let tid ← getReq args.task_id "task_id"
    let pid ← getReq args.project_id "project_id"
    let _ ← api.delete_task tid pid
    pure [⟨"text", "🗑️ Task deleted."⟩]
  else
    pure [⟨"text", "Unknown tool: " ++ name⟩]

/-- `call_tool` (server.py lines 429-614): run the dispatch body; any
exception it raises is caught and converted to the single
`❌ Error: ...` text result, so the handler always returns a normal list of
text contents. -/
def call_tool (api : ApiModel) (name : String) (args : ToolArgs) :
    List TextContent :=
  match call_tool_body api name args with
  | Except.ok res => res
  | Except.error e => [⟨"text", "❌ Error: " ++ e.msg⟩]

/-- Spec-side per-task overdue test, following claim C7's words exactly: the
due-date string, after stripping the text following `+` and any remainder
past the first 19 characters, parses to a point strictly before `now`;
missing or unparseable due dates are excluded. -/
def claimOverdueKeep (now : PyDateTime) (t : Task) : Bool :=
  match t.dueDate with
  | none => false
  | some due =>
    match fromisoformat ((due.data.takeWhile (fun c => c != '+')).take 19) with
    | some parsed => PyDateTime.lt parsed.dt now
    | none => false

/-- Spec-side per-task overdue test for the amended claim C7: a task is kept
when its due date is present and nonempty and, when the string contains `+`,
the whole text before the first `+` (with no 19-character truncation)
parses to an offset-naive time strictly before `now`; otherwise when its
first 19 characters, with `T` replaced by a space, parse to an offset-naive
time strictly before `now`; unparseable due dates, and aware parses (never
kept — they raise instead), are not kept. -/
def amendedOverdueKeep (now : PyDateTime) (t : Task) : Bool :=
  let due := t.dueDate.getD ""
  if due == "" then false
  else
    let stripped :=
      if due.data.contains '+' then due.data.takeWhile (fun c => c != '+')
      else (due.data.take 19).map (fun c => if c == 'T' then ' ' else c)
    match fromisoformat stripped with
    | some parsed =>
      match parsed.tz with
      | none => PyDateTime.lt parsed.dt now
      | some _ => false
    | none => false

/-- Spec-side test for the amended claim C7's error path: the task's due
date survives the code's normalization and parses to an offset-AWARE
datetime, so comparing it with the naive `now` raises `TypeError`. -/
def dueParsesAware (t : Task) : Bool :=
  let due := t.dueDate.getD ""
  if due == "" then false
  else
    match fromisoformat (normalizeDueChars due.data) with
    | some parsed => parsed.tz.isSome
    | none => false

/-- Spec-side shape of the aggregate list (claim C5): per project in listing
order, its tasks in original order, each annotated with the owning project's
display name; a project whose fetch failed contributes nothing. -/
def aggregateShape (projects : List Project)
    (fd : String → Except HttpError ProjectData) : List Task :=
  (projects.map (fun p =>
    match fd p.id with
    | Except.ok data => (data.tasks.getD []).map
        (fun t => { t with projectName := some (p.name.getD "Unknown") })
    | Except.error _ => [])).flatten

/-- Fixture: a first project, display name P1. -/
def wP1 : Project := { id := "p1", name := some "P1" }

/-- Fixture: a second project, display name P2. -/
def wP2 : Project := { id := "p2", name := some "P2" }

/-- Fixture: first task of project P1. -/
def wT1 : Task := { id := some "t1", title := some "Alpha" }

/-- Fixture: second task of project P1. -/
def wT2 : Task := { id := some "t2", title := some "Beta" }

/-- Fixture: fetch oracle for the aggregation example — P1 has two tasks,
P2 answers 403. -/
def wFdAgg : String → Except HttpError ProjectData := fun pid =>
  if pid = "p1" then Except.ok { tasks := some [wT1, wT2] }
  else Except.error (HttpError.statusError 403)

/-- Fixture: fetch oracle failing with a 403 status error everywhere. -/
def wFd403 : String → Except HttpError ProjectData := fun _ =>
  Except.error (HttpError.statusError 403)

/-- Fixture: fetch oracle failing with a 500 status error everywhere. -/
def cexFd500 : String → Except HttpError ProjectData := fun _ =>
  Except.error (HttpError.statusError 500)

/-- Fixture: parent task holding the checklist [A at 0, B at 1]. -/
def wParentTask : Task :=
  { id := some "t1", items := [⟨"A", 0, 0⟩, ⟨"B", 0, 1⟩] }

/-- Fixture: fetch oracle whose project data holds only `wParentTask`. -/
def wFdSub : String → Except HttpError ProjectData := fun _ =>
  Except.ok { tasks := some [wParentTask] }

/-- Fixture: a past-due task (date-only form). -/
def wTaskPast : Task := { id := some "t1", dueDate := some "2020-01-05" }

/-- Fixture: a future-due task (date-only form). -/
def wTaskFuture : Task := { id := some "t2", dueDate := some "2030-01-05" }

/-- Fixture: fetch oracle serving one past-due and one future-due task. -/
def wFdOverdue : String → Except HttpError ProjectData := fun _ =>
  Except.ok { tasks := some [wTaskPast, wTaskFuture] }

/-- Fixture: a task whose due date carries a negative UTC offset, surviving
the 19-character truncation and parsing to an aware datetime. -/
def wTaskAware : Task := { id := some "t3", dueDate := some "2024-01-01T00-05:00" }

/-- Fixture: fetch oracle serving only `wTaskAware`. -/
def wFdAware : String → Except HttpError ProjectData := fun _ =>
  Except.ok { tasks := some [wTaskAware] }

/-- Fixture: the caller's current local time, 2025-06-15 12:00:00. -/
def wNow : PyDateTime := ⟨2025, 6, 15, 12, 0, 0, 0⟩

/-- Fixture: a task whose due date carries trailing garbage before the
offset suffix. -/
def cexDueTask : Task := { dueDate := some "2024-01-01T00:00:00XYZ+0000" }

/-- Fixture: fetch oracle serving only `cexDueTask`. -/
def cexFdDue : String → Except HttpError ProjectData := fun _ =>
  Except.ok { tasks := some [cexDueTask] }

/-- Fixture: a high-priority task. -/
def wT5 : Task := { id := some "a", title := some "Hot", priority := some 5 }

/-- Fixture: a task with no priority field (counts as 0). -/
def wT0 : Task := { id := some "b", title := some "Cold" }

/-- Fixture: fetch oracle serving one priority-5 and one priority-less task. -/
def wFdPrio : String → Except HttpError ProjectData := fun _ =>
  Except.ok { tasks := some [wT5, wT0] }

/-- Fixture: a client whose every method raises an exception with message
`boom`. -/
def wApi : ApiModel :=
  { get_projects := Except.error ⟨"boom"⟩
    get_project_by_id := fun _ => Except.error ⟨"boom"⟩
    get_project_with_data := fun _ => Except.error ⟨"boom"⟩
    create_project := fun _ _ _ _ => Except.error ⟨"boom"⟩
    update_project := fun _ _ _ _ _ => Except.error ⟨"boom"⟩
    delete_project := fun _ => Except.error ⟨"boom"⟩
    get_all_tasks := fun _ => Except.error ⟨"boom"⟩
    get_today_tasks := Except.error ⟨"boom"⟩
    get_overdue_tasks := Except.error ⟨"boom"⟩
    get_tasks_by_priority := fun _ => Except.error ⟨"boom"⟩
    get_tasks_by_tag := fun _ => Except.error ⟨"boom"⟩
    get_all_tags := Except.error ⟨"boom"⟩
    create_task := fun _ _ _ _ _ => Except.error ⟨"boom"⟩
    create_task_with_subtasks := fun _ _ _ _ _ _ => Except.error ⟨"boom"⟩
    add_subtask := fun _ _ _ => Except.error ⟨"boom"⟩
    complete_task := fun _ _ => Except.error ⟨"boom"⟩
    update_task := fun _ _ _ _ _ _ => Except.error ⟨"boom"⟩
    delete_task := fun _ _ => Except.error ⟨"boom"⟩
    json_dumps := fun _ => "" }

/-- Fixture: arguments carrying a task and project identifier. -/
def wArgsDelete : ToolArgs := { task_id := some "t1", project_id := some "p1" }

/-- Claim C1, counterexample: a 500 status error — neither 401 nor 403 — on
the only project's fetch is silently skipped by the aggregation, which
returns the empty ok result instead of propagating the error as the claim
requires. -/
theorem get_all_tasks_skips_non_access_status_error :
    get_all_tasks (Except.ok [wP1]) cexFd500 none = Except.ok [] ∧
    get_all_tasks (Except.ok [wP1]) cexFd500 none ≠
      Except.error (HttpError.statusError 500) := by
  constructor
  · rfl
  · intro h
    exact Except.noConfusion
      ((rfl : get_all_tasks (Except.ok [wP1]) cexFd500 none =
        Except.ok []).symm.trans h)

/-- Claim C1, amended: during an aggregate fetch, a project whose
per-project task fetch fails with any HTTP status error (any non-2xx
response, 401/403 included) is silently skipped and the aggregation
continues with the remaining projects, while a transport-level failure
propagates out of the aggregation. -/
theorem get_all_tasks_status_skip_transport_propagate
    (fd : String → Except HttpError ProjectData) (p : Project)
    (rest : List Project) :
    (∀ c, fd p.id = Except.error (HttpError.statusError c) →
      get_all_tasks (Except.ok (p :: rest)) fd none =
        get_all_tasks (Except.ok rest) fd none) ∧
    (∀ m, fd p.id = Except.error (HttpError.transportError m) →
      get_all_tasks (Except.ok (p :: rest)) fd none =
        Except.error (HttpError.transportError m)) := by
  constructor
  · intro c h
    simp [get_all_tasks, pyStrTruthy, aggregateLoop, h]
  · intro m h
    simp [get_all_tasks, pyStrTruthy, aggregateLoop, h]

/-- Witness for the amended claim C1: the fetch oracle answering 403
everywhere makes the first project drop out of the aggregation. -/
theorem get_all_tasks_status_skip_transport_propagate_witness :
    get_all_tasks (Except.ok [wP1]) wFd403 none =
      get_all_tasks (Except.ok []) wFd403 none :=
  (get_all_tasks_status_skip_transport_propagate wFd403 wP1 []).1 403 rfl

/-- Claim C2: the `update_task` payload always carries `id` and `projectId`;
`title` is present exactly when a truthy (non-empty) title was provided —
an empty-string title is treated as not provided, so this path cannot clear
a title; `content` and `priority` are present exactly when provided
(`is not None`); `dueDate` is present exactly when a truthy due date was
provided. -/
theorem update_task_payload_field_presence (task_id project_id : String)
    (title content : Option String) (priority : Option Int)
    (due_date : Option String) :
    plookup "id" (update_task_payload task_id project_id title content
      priority due_date) = some (JVal.str task_id) ∧
    plookup "projectId" (update_task_payload task_id project_id title content
      priority due_date) = some (JVal.str project_id) ∧
    ((plookup "title" (update_task_payload task_id project_id title content
      priority due_date)).isSome ↔ ∃ t, title = some t ∧ t ≠ "") ∧
    ((plookup "content" (update_task_payload task_id project_id title content
      priority due_date)).isSome ↔ content.isSome) ∧
    ((plookup "priority" (update_task_payload task_id project_id title content
      priority due_date)).isSome ↔ priority.isSome) ∧
    ((plookup "dueDate" (update_task_payload task_id project_id title content
      priority due_date)).isSome ↔ ∃ d, due_date = some d ∧ d ≠ "") := by
  refine ⟨?_, ?_, ?_, ?_, ?_, ?_⟩ <;>
    (rcases title with _ | t <;> rcases content with _ | c <;>
      rcases priority with _ | pr <;> rcases due_date with _ | d <;>
      simp only [update_task_payload, strIfTruthy] <;>
      (try split_ifs) <;> simp_all [plookup])

/-- Claim C10: the `create_task` payload always carries `title`, and carries
`projectId`, `content`, `priority` or `dueDate` exactly when the
corresponding argument is truthy — in particular the default priority 0 and
an empty-string content are omitted entirely. -/
theorem create_task_payload_field_presence (title : String)
    (project_id content : Option String) (priority : Int)
    (due_date : Option String) :
    plookup "title" (create_task_payload title project_id content priority
      due_date) = some (JVal.str title) ∧
    ((plookup "projectId" (create_task_payload title project_id content
      priority due_date)).isSome ↔ ∃ p, project_id = some p ∧ p ≠ "") ∧
    ((plookup "content" (create_task_payload title project_id content
      priority due_date)).isSome ↔ ∃ c, content = some c ∧ c ≠ "") ∧
    ((plookup "priority" (create_task_payload title project_id content
      priority due_date)).isSome ↔ priority ≠ 0) ∧
    ((plookup "dueDate" (create_task_payload title project_id content
      priority due_date)).isSome ↔ ∃ d, due_date = some d ∧ d ≠ "") := by
  refine ⟨?_, ?_, ?_, ?_, ?_⟩ <;>
    (rcases project_id with _ | p <;> rcases content with _ | c <;>
      rcases due_date with _ | d <;>
      simp only [create_task_payload, strIfTruthy] <;>
      (try split_ifs) <;> simp_all [plookup])

/-- Claim C6, counterexample: an empty-string due date is supplied yet no
`dueDate` field is transmitted at all, although the claim requires any
non-10-character due date to be transmitted unchanged. -/
theorem create_task_empty_due_date_omitted :
    plookup "dueDate" (create_task_payload "t" none none 0 (some "")) = none ∧
    ("" : String).length ≠ 10 :=
  ⟨rfl, by decide⟩

/-- Claim C6, amended: a due date of exactly 10 characters is transmitted
with `T00:00:00+0000` appended; a nonempty due date of any other length is
transmitted unchanged; an empty due date is falsy and omitted from the
payload entirely. -/
theorem create_task_due_date_normalization (title : String)
    (project_id content : Option String) (priority : Int) (d : String) :
    (d.length = 10 →
      plookup "dueDate" (create_task_payload title project_id content priority
        (some d)) = some (JVal.str (d ++ "T00:00:00+0000"))) ∧
    (d ≠ "" → d.length ≠ 10 →
      plookup "dueDate" (create_task_payload title project_id content priority
        (some d)) = some (JVal.str d)) ∧
    (d = "" →
      plookup "dueDate" (create_task_payload title project_id content priority
        (some d)) = none) := by
  refine ⟨?_, ?_, ?_⟩
  · intro hlen
    have hd : d ≠ "" := by
      intro he
      rw [he] at hlen
      exact absurd hlen (by decide)
    rcases project_id with _ | p <;> rcases content with _ | c <;>
      simp only [create_task_payload, strIfTruthy, expand_due_date] <;>
      (try split_ifs) <;> simp_all [plookup]
  · intro hd hlen
    rcases project_id with _ | p <;> rcases content with _ | c <;>
      simp only [create_task_payload, strIfTruthy, expand_due_date] <;>
      (try split_ifs) <;> simp_all [plookup]
  · intro hd
    rcases project_id with _ | p <;> rcases content with _ | c <;>
      simp only [create_task_payload, strIfTruthy, expand_due_date] <;>
      (try split_ifs) <;> simp_all [plookup]

/-- Witness for the amended claim C6: the 10-character date of the spec's
example is expanded to midnight UTC. -/
theorem create_task_due_date_normalization_witness :
    plookup "dueDate" (create_task_payload "t" none none 0
      (some "2025-01-30")) = some (JVal.str "2025-01-30T00:00:00+0000") :=
  (create_task_due_date_normalization "t" none none 0 "2025-01-30").1
    (by decide)

/-- Claim C3: `add_subtask` fetches the project's task set, fails with the
not-found `ValueError` when no task there has the given identifier, and
otherwise resubmits the located task's full checklist — every existing item
in original relative order, then one new item with the given title,
status 0 and sort position equal to the number of existing items. -/
theorem add_subtask_not_found_or_appends
    (fd : String → Except HttpError ProjectData)
    (task_id project_id subtask_title : String) (data : ProjectData)
    (hfd : fd project_id = Except.ok data) :
    ((∀ t ∈ data.tasks.getD [], t.id ≠ some task_id) →
      add_subtask fd task_id project_id subtask_title =
        Except.error (ApiFailure.valueError
          ("Task " ++ task_id ++ " not found in project " ++ project_id))) ∧
    (∀ ct, (data.tasks.getD []).find? (fun t => t.id == some task_id) =
        some ct →
      add_subtask fd task_id project_id subtask_title =
        Except.ok [("id", JVal.str task_id), ("projectId", JVal.str project_id),
          ("items", JVal.items (ct.items ++
            [⟨subtask_title, 0, (ct.items.length : Int)⟩]))]) := by
  constructor
  · intro hall
    have hfind : (data.tasks.getD []).find? (fun t => t.id == some task_id) =
        none := by
      apply List.find?_eq_none.mpr
      intro t ht hbeq
      exact hall t ht (by simpa using hbeq)
    simp [add_subtask, hfd, hfind]
  · intro ct hct
    simp [add_subtask, hfd, hct]

/-- Witness for claim C3: on the spec's example checklist [A at 0, B at 1]
the resubmitted payload is [A at 0, B at 1, C at 2]. -/
theorem add_subtask_not_found_or_appends_witness :
    add_subtask wFdSub "t1" "p1" "C" = Except.ok
      [("id", JVal.str "t1"), ("projectId", JVal.str "p1"),
       ("items", JVal.items [⟨"A", 0, 0⟩, ⟨"B", 0, 1⟩, ⟨"C", 0, 2⟩])] :=
  (add_subtask_not_found_or_appends wFdSub "t1" "p1" "C"
    { tasks := some [wParentTask] } rfl).2 wParentTask rfl

/-- The aggregation loop, absent transport errors, produces exactly the
per-project concatenation `aggregateShape`. -/
theorem aggregateLoop_shape (fd : String → Except HttpError ProjectData) :
    ∀ projects : List Project,
    (∀ p ∈ projects, ∀ m,
      fd p.id ≠ Except.error (HttpError.transportError m)) →
    aggregateLoop fd projects = Except.ok (aggregateShape projects fd) := by
  intro projects
  induction projects with
  | nil => intro _; rfl
  | cons p rest ih =>
    intro h
    have hrest := fun q hq => h q (List.mem_cons_of_mem p hq)
    cases hfd : fd p.id with
    | ok data =>
      simp [aggregateLoop, hfd, ih hrest, aggregateShape]
    | error e =>
      cases e with
      | statusError c =>
        simp [aggregateLoop, hfd, ih hrest, aggregateShape]
      | transportError m =>
        exact absurd hfd (h p (List.mem_cons_self p rest) m)

/-- Claim C5: with no `project_id`, the aggregate result is exactly — for
each project in listing order whose fetch did not fail — that project's
tasks in their original order, each annotated with the owning project's
display name; a status error (the simulated 403 included) on one project
removes only that project's tasks and the call does not raise. -/
theorem get_all_tasks_aggregate_shape (projects : List Project)
    (fd : String → Except HttpError ProjectData)
    (h : ∀ p ∈ projects, ∀ m,
      fd p.id ≠ Except.error (HttpError.transportError m)) :
    get_all_tasks (Except.ok projects) fd none =
      Except.ok (aggregateShape projects fd) := by
  have := aggregateLoop_shape fd projects h
  simpa [get_all_tasks, pyStrTruthy] using this

/-- Witness for claim C5: projects P1 (two tasks) and P2 (fetch answers
403) yield exactly P1's two tasks, annotated with name P1. -/
theorem get_all_tasks_aggregate_shape_witness :
    get_all_tasks (Except.ok [wP1, wP2]) wFdAgg none =
      Except.ok [{ wT1 with projectName := some "P1" },
                 { wT2 with projectName := some "P1" }] :=
  (get_all_tasks_aggregate_shape [wP1, wP2] wFdAgg (by
    intro p hp m
    fin_cases hp <;> simp [wFdAgg, wP1, wP2])).trans rfl

/-- Pointwise form of `amendedOverdueKeep` through `normalizeDueChars`. -/
theorem amendedOverdueKeep_eq (now : PyDateTime) (t : Task) :
    amendedOverdueKeep now t =
      (if (t.dueDate.getD "") == "" then false
       else
        match fromisoformat (normalizeDueChars (t.dueDate.getD "").data) with
        | some parsed =>
          match parsed.tz with
          | none => PyDateTime.lt parsed.dt now
          | some _ => false
        | none => false) := rfl

/-- When no task's due date parses aware, the overdue loop succeeds and is
exactly a filter by `amendedOverdueKeep`. -/
theorem overdue_loop_ok (now : PyDateTime) :
    ∀ l : List Task, (∀ t ∈ l, dueParsesAware t = false) →
      overdue_loop now l = Except.ok (l.filter (amendedOverdueKeep now))
  | [] => fun _ => rfl
  | t :: rest => fun h => by
    have hrest := overdue_loop_ok now rest
      (fun q hq => h q (List.mem_cons_of_mem t hq))
    have ht := h t (List.mem_cons_self t rest)
    rw [List.filter_cons, amendedOverdueKeep_eq]
    simp only [overdue_loop]
    cases hdue : ((t.dueDate.getD "") == "") with
    | true => simp [hdue, hrest]
    | false =>
      cases hp : fromisoformat (normalizeDueChars (t.dueDate.getD "").data) with
      | none => simp [hdue, hp, hrest]
      | some parsed =>
        cases htz : parsed.tz with
        | none =>
          cases hlt : PyDateTime.lt parsed.dt now with
          | true => simp [hdue, hp, htz, hlt, hrest]
          | false => simp [hdue, hp, htz, hlt, hrest]
        | some off => simp [dueParsesAware, hdue, hp, htz] at ht

/-- When some task's due date parses aware, the overdue loop aborts with the
uncaught `TypeError`. -/
theorem overdue_loop_error (now : PyDateTime) :
    ∀ l : List Task, (∃ t ∈ l, dueParsesAware t = true) →
      overdue_loop now l = Except.error awareCompareMsg
  | [] => fun ⟨t, ht, _⟩ => absurd ht (List.not_mem_nil t)
  | t :: rest => fun ⟨u, hu, hau⟩ => by
    by_cases hat : dueParsesAware t = true
    · simp only [overdue_loop]
      cases hdue : ((t.dueDate.getD "") == "") with
      | true => simp [dueParsesAware, hdue] at hat
      | false =>
        cases hp : fromisoformat (normalizeDueChars
            (t.dueDate.getD "").data) with
        | none => simp [dueParsesAware, hdue, hp] at hat
        | some parsed =>
          cases htz : parsed.tz with
          | none => simp [dueParsesAware, hdue, hp, htz] at hat
          | some off => simp [hdue, hp, htz]
    · have hu2 : u ∈ rest := by
        cases List.mem_cons.mp hu with
        | inl he => exact absurd (he ▸ hau) hat
        | inr hr => exact hr
      have hrest := overdue_loop_error now rest ⟨u, hu2, hau⟩
      simp only [overdue_loop]
      cases hdue : ((t.dueDate.getD "") == "") with
      | true => simp [hdue, hrest]
      | false =>
        cases hp : fromisoformat (normalizeDueChars
            (t.dueDate.getD "").data) with
        | none => simp [hdue, hp, hrest]
        | some parsed =>
          cases htz : parsed.tz with
          | none =>
            cases hlt : PyDateTime.lt parsed.dt now with
            | true => simp [hdue, hp, htz, hlt, hrest]
            | false => simp [hdue, hp, htz, hlt, hrest]
          | some off => simp [dueParsesAware, hdue, hp, htz] at hat

/-- Claim C7, counterexample: for a due date with trailing garbage before
the `+` offset, the claim's normalization (strip after `+`, then truncate to
19 characters) parses and marks the task overdue, yet `get_overdue_tasks`
returns the empty list because the code parses the whole prefix before `+`
without truncation and fails. -/
theorem get_overdue_tasks_truncation_counterexample :
    claimOverdueKeep wNow { cexDueTask with projectName := some "P1" } = true ∧
    get_overdue_tasks (Except.ok [wP1]) cexFdDue wNow = Except.ok [] :=
  ⟨rfl, rfl⟩

/-- Claim C7, amended: when no aggregated task's due date parses to an
offset-aware datetime, `get_overdue_tasks` returns exactly those aggregated
tasks whose due-date string is nonempty and — when it contains `+`, after
stripping everything from the first `+` on (with no further truncation);
otherwise after truncating to the first 19 characters and replacing `T` by
a space — parses to an offset-naive point strictly before the caller's
current local time, tasks with missing or unparseable due dates being
excluded; but when some aggregated task's due date parses to an
offset-aware datetime (an offset suffix surviving the normalization), the
aware-versus-naive comparison raises a `TypeError` that is not caught and
propagates out of `get_overdue_tasks`. -/
theorem get_overdue_tasks_filter_characterization
    (getProjects : Except HttpError (List Project))
    (fd : String → Except HttpError ProjectData) (now : PyDateTime)
    (l : List Task) (h : get_all_tasks getProjects fd none = Except.ok l) :
    ((∀ t ∈ l, dueParsesAware t = false) →
      get_overdue_tasks getProjects fd now =
        Except.ok (l.filter (amendedOverdueKeep now))) ∧
    ((∃ t ∈ l, dueParsesAware t = true) →
      get_overdue_tasks getProjects fd now =
        Except.error (OverdueError.typeError awareCompareMsg)) := by
  constructor
  · intro hnone
    simp [get_overdue_tasks, h, overdue_loop_ok now l hnone]
  · intro hex
    simp [get_overdue_tasks, h, overdue_loop_error now l hex]

/-- Witness for the amended claim C7: of a past-due and a future-due task
only the past-due one is returned, and a task whose due date carries a
`-05:00` offset makes the call raise the uncaught `TypeError`. -/
theorem get_overdue_tasks_filter_characterization_witness :
    get_overdue_tasks (Except.ok [wP1]) wFdOverdue wNow =
      Except.ok [{ wTaskPast with projectName := some "P1" }] ∧
    get_overdue_tasks (Except.ok [wP1]) wFdAware wNow =
      Except.error (OverdueError.typeError awareCompareMsg) :=
  ⟨((get_overdue_tasks_filter_characterization (Except.ok [wP1]) wFdOverdue
      wNow [{ wTaskPast with projectName := some "P1" },
        { wTaskFuture with projectName := some "P1" }] rfl).1
      (by decide)).trans rfl,
   (get_overdue_tasks_filter_characterization (Except.ok [wP1]) wFdAware wNow
      [{ wTaskAware with projectName := some "P1" }] rfl).2
      ⟨{ wTaskAware with projectName := some "P1" }, by decide, by decide⟩⟩

/-- Claim C8: for a minimum priority in the enumeration, the result of
`get_tasks_by_priority` is exactly the subsequence of the aggregate list
whose tasks have priority at least the minimum (a missing priority counts
as 0), preserving aggregate order: it is a sublist of the aggregate, every
kept task qualifies, and every qualifying sublist of the aggregate is a
sublist of it. -/
theorem get_tasks_by_priority_exact_subsequence
    (getProjects : Except HttpError (List Project))
    (fd : String → Except HttpError ProjectData) (min_priority : Int)
    (l r : List Task) (hmin : min_priority ∈ ([0, 1, 3, 5] : List Int))
    (hall : get_all_tasks getProjects fd none = Except.ok l)
    (hr : get_tasks_by_priority getProjects fd min_priority = Except.ok r) :
    List.Sublist r l ∧ (∀ t ∈ r, min_priority ≤ t.priority.getD 0) ∧
    (∀ s, List.Sublist s l → (∀ t ∈ s, min_priority ≤ t.priority.getD 0) →
      List.Sublist s r) := by
  have hrr : r =
      l.filter (fun t => decide (min_priority ≤ t.priority.getD 0)) := by
    simp [get_tasks_by_priority, hall] at hr
    exact hr.symm
  subst hrr
  refine ⟨List.filter_sublist l, ?_, ?_⟩
  · intro t ht
    simpa using (List.mem_filter.mp ht).2
  · intro s hs hsat
    have hss : s.filter (fun t => decide (min_priority ≤ t.priority.getD 0)) =
        s :=
      List.filter_eq_self.mpr (fun t ht => by simpa using hsat t ht)
    rw [← hss]
    exact List.Sublist.filter _ hs

/-- Witness for claim C8: minimum 3 keeps exactly the priority-5 task of a
priority-5 and a priority-less task, in order. -/
theorem get_tasks_by_priority_exact_subsequence_witness :
    List.Sublist [{ wT5 with projectName := some "P1" }]
      [{ wT5 with projectName := some "P1" },
       { wT0 with projectName := some "P1" }] ∧
    (∀ t ∈ [{ wT5 with projectName := some "P1" }],
      (3 : Int) ≤ t.priority.getD 0) ∧
    (∀ s, List.Sublist s [{ wT5 with projectName := some "P1" },
        { wT0 with projectName := some "P1" }] →
      (∀ t ∈ s, (3 : Int) ≤ t.priority.getD 0) →
      List.Sublist s [{ wT5 with projectName := some "P1" }]) :=
  get_tasks_by_priority_exact_subsequence (Except.ok [wP1]) wFdPrio 3
    [{ wT5 with projectName := some "P1" },
     { wT0 with projectName := some "P1" }]
    [{ wT5 with projectName := some "P1" }] (by decide) rfl rfl

/-- Claim C4: any exception the dispatch body raises is caught at the
adapter boundary and becomes the single text result prefixed with the
failure glyph and carrying the exception's message; `call_tool` is total,
so no client exception escapes as a protocol-level fault. -/
theorem call_tool_converts_exceptions (api : ApiModel) (name : String)
    (args : ToolArgs) (e : PyErr)
    (h : call_tool_body api name args = Except.error e) :
    call_tool api name args = [⟨"text", "❌ Error: " ++ e.msg⟩] ∧
    (∃ rest, "❌ Error: " ++ e.msg = "❌" ++ rest) ∧
    (∃ pre, "❌ Error: " ++ e.msg = pre ++ e.msg) := by
  refine ⟨?_, ⟨" Error: " ++ e.msg, ?_⟩, ⟨"❌ Error: ", rfl⟩⟩
  · simp [call_tool, h]
  · rw [show ("❌ Error: " : String) = "❌" ++ " Error: " from rfl,
      String.append_assoc]

/-- Witness for claim C4: a client whose `delete_task` raises `boom` yields
the single failure text result. -/
theorem call_tool_converts_exceptions_witness :
    call_tool wApi "delete_task" wArgsDelete =
      [⟨"text", "❌ Error: boom"⟩] :=
  (call_tool_converts_exceptions wApi "delete_task" wArgsDelete ⟨"boom"⟩
    rfl).1

/-- Claim C9: a tool name outside the fixed catalog yields the normal
`Unknown tool` text result — the handler returns rather than raising. -/
theorem call_tool_unknown_tool (api : ApiModel) (args : ToolArgs)
    (name : String) (h : name ∉ toolNames) :
    call_tool api name args = [⟨"text", "Unknown tool: " ++ name⟩] ∧
    (∃ rest, "Unknown tool: " ++ name = "Unknown tool" ++ rest) := by
  have hb : call_tool_body api name args =
      Except.ok [⟨"text", "Unknown tool: " ++ name⟩] := by
    simp only [toolNames, List.mem_cons, List.not_mem_nil, or_false,
      not_or] at h
    obtain ⟨h1, h2, h3, h4, h5, h6, h7, h8, h9, h10, h11, h12, h13, h14, h15,
      h16, h17, h18⟩ := h
    simp only [call_tool_body, if_neg h1, if_neg h2, if_neg h3, if_neg h4,
      if_neg h5, if_neg h6, if_neg h7, if_neg h8, if_neg h9, if_neg h10,
      if_neg h11, if_neg h12, if_neg h13, if_neg h14, if_neg h15, if_neg h16,
      if_neg h17, if_neg h18]
    rfl
  refine ⟨?_, ⟨": " ++ name, ?_⟩⟩
  · simp [call_tool, hb]
  · rw [show ("Unknown tool: " : String) = "Unknown tool" ++ ": " from rfl,
      String.append_assoc]

/-- Witness for claim C9: an uncatalogued name returns the unknown-tool
text result. -/
theorem call_tool_unknown_tool_witness :
    call_tool wApi "rename_task" {} =
      [⟨"text", "Unknown tool: rename_task"⟩] :=
  (call_tool_unknown_tool wApi {} "rename_task" (by decide)).1

end TickTickMcp
